import Mathlib

/-!
Verification of the SmogPing probing and event pipeline (main.go) against its
natural-language specification.  The Go code is shallowly embedded: structs
become Lean structures, Go `int` fields become `Nat` where the configuration
validator (main.go:600-705, 992-1070) restricts them to nonnegative ranges and
`Int` where a sign test in the code matters, `time.Duration` values are integer
nanosecond counts (`Nat`/`Int`), Go maps are modelled by association lists with
the lookup/overwrite semantics spelled out at each definition, and `float64`
arithmetic is abstracted to exact field arithmetic (`ℚ`/`ℝ`) as noted at each
use.  Functions that Go runs for effect are modelled as explicit state
transformers.
-/

namespace SmogPing

/-- Embeds the Go `Config` struct (main.go:50-65).  All numeric fields are Go
`int`; they are modelled as `Nat` except `dnsRefresh`, kept as `Int` because
`setupDNSResolver` (main.go:1370) branches on `dnsRefresh <= 0`. -/
structure Config where
  influxURL : String
  influxToken : String
  influxOrg : String
  influxBucket : String
  influxBatchSize : Nat
  influxBatchTime : Nat
  dataPointPings : Nat
  dataPointTime : Nat
  pingTimeout : Nat
  pingSource : String
  dnsRefresh : Int
  alarmRate : Nat
  alarmReceiver : String
  maxConcurrentPings : Nat
deriving DecidableEq, Repr

/-- Embeds the Go `Host` struct (main.go:68-80).  The `LastDNSCheck` timestamp
field is omitted: no claim under verification depends on it.  Threshold fields
are Go `int`, kept as `Int`. -/
structure Host where
  name : String
  ip : String
  alarmPing : Int
  alarmLoss : Int
  alarmJitter : Int
  alarmReceiver : String
  pingSource : String
  resolvedIP : String
  isDNSName : Bool
deriving DecidableEq, Repr

/-- Embeds the Go `Organization` struct (main.go:98-100). -/
structure Organization where
  hosts : List Host
deriving DecidableEq, Repr

/-- Embeds the Go `TargetsConfig` struct (main.go:103-106).  The
`Organizations map[string]Organization` field is modelled as an association
list with distinct organization names; the `Include` file list plays no role in
the claims under verification and is omitted. -/
structure TargetsConfig where
  organizations : List (String × Organization)
deriving DecidableEq, Repr

/-- Embeds the Go `PingResult` struct (main.go:109-116).  `AvgRTT` and
`Jitter` are `time.Duration`, i.e. integer nanosecond counts; `PacketLoss` is a
`float64` percentage, abstracted to `ℚ`. -/
structure PingResult where
  host : Host
  avgRTTns : Nat
  packetLoss : ℚ
  jitterNs : Nat
  timestampNs : Int
  orgName : String
deriving DecidableEq, Repr

/-- One target together with its organization, as in the Go `TargetInfo` struct
(main.go:119-122), modelled as a pair (orgName, host). -/
abbrev TargetPair := String × Host

/-- Flattens a registry into the list of its (organization, host) pairs, in
registry order.  This is the iteration `for orgName, org := range ... for _,
host := range org.Hosts` that the Go code performs in `startPingMonitoring`,
`compareTargets` and `validateConfiguration`; Go map iteration order is
unspecified, and every verified statement about this list is
order-insensitive. -/
def allTargets (t : TargetsConfig) : List TargetPair :=
  (t.organizations.map (fun p => p.2.hosts.map (fun h => (p.1, h)))).flatten

/- ### DNS subsystem -/

/-- Embeds `isDNSName` (main.go:1456-1468).  The call `net.ParseIP(address) !=
nil` is abstracted as the parameter `isIP` (the Go standard library's address
parser is an external collaborator); the letter test `strings.ContainsAny(
address, "a..zA..Z")` is exactly `Char.isAlpha` on ASCII. -/
def isDNSName (isIP : String → Bool) (address : String) : Bool :=
  if isIP address then false
  else address.data.contains '.' && address.data.any Char.isAlpha

/-- Embeds the per-host body of `performDNSPreflightChecks` (main.go:1390-1434):
a DNS-named host whose resolution fails is dropped (`none`, the Go `continue`
that skips `validHosts = append(validHosts, host)`); otherwise the host is kept
with `IsDNSName` and `ResolvedIP` filled in.  `resolve` abstracts
`resolveDNSName` (main.go:1471-1493), returning `none` on resolution error. -/
def preflightHost (resolve : String → Option String) (isIP : String → Bool)
    (h : Host) : Option Host :=
  if isDNSName isIP h.ip then
    match resolve h.ip with
    | none => none
    | some ip => some { h with isDNSName := true, resolvedIP := ip }
  else some { h with isDNSName := false, resolvedIP := h.ip }

/-- Embeds `performDNSPreflightChecks` (main.go:1379-1453): every
organization's host list is replaced by its `validHosts` sublist, i.e. the
in-order hosts surviving `preflightHost`.  The function always returns `nil` in
Go; startup never fails here. -/
def performDNSPreflightChecks (resolve : String → Option String)
    (isIP : String → Bool) (t : TargetsConfig) : TargetsConfig :=
  ⟨t.organizations.map (fun p => (p.1, ⟨p.2.hosts.filterMap (preflightHost resolve isIP)⟩))⟩

/-- Embeds `setupDNSResolver`'s configuration mutation (main.go:1369-1372):
`if sp.config.DNSRefresh <= 0 { sp.config.DNSRefresh = 600 }`.  In `main`
(main.go:261) this runs before `startDNSRefreshMonitoring` (main.go:300). -/
def setupDNSResolver (cfg : Config) : Config :=
  if cfg.dnsRefresh ≤ 0 then { cfg with dnsRefresh := 600 } else cfg

/-- Embeds the guard of `startDNSRefreshMonitoring` (main.go:1497-1500): the
refresh ticker goroutine is started iff `DNSRefresh > 0` at the time the
function runs. -/
def dnsRefreshMonitoringStarts (cfg : Config) : Bool :=
  decide (0 < cfg.dnsRefresh)

/-- Embeds the per-host body of `performDNSRefreshCheck` (main.go:1534-1586):
non-DNS hosts are skipped; a failed resolution keeps the old host; a changed
resolution updates `ResolvedIP` in the registry entry.  (`LastDNSCheck`
updates and the DNS cache bookkeeping are omitted; no claim depends on
them.) -/
def refreshHost (resolve : String → Option String) (h : Host) : Host :=
  if h.isDNSName then
    match resolve h.ip with
    | none => h
    | some newIP => if newIP ≠ h.resolvedIP then { h with resolvedIP := newIP } else h
  else h

/- ### Per-target schedulers -/

/-- A running per-target scheduler goroutine.  `runIndividualPingSchedule`
(main.go:2115) receives `host Host` by value, so the worker owns an immutable
copy of the `Host` record taken when the goroutine was started; later registry
mutations (`sp.targets`) are invisible to it. -/
structure WorkerState where
  orgName : String
  host : Host
  startDelayNs : Nat
deriving DecidableEq, Repr

/-- The shared state relevant to the claims: the live registry (`sp.targets`,
guarded by `targetsMux` in Go) and the set of running scheduler goroutines with
their captured `Host` copies. -/
structure SysState where
  targets : TargetsConfig
  workers : List WorkerState
deriving DecidableEq, Repr

/-- Embeds `performDNSRefreshCheck` (main.go:1523-1600) as a state
transformer: it rewrites each registry entry through `refreshHost` under the
registry write lock.  It touches nothing else: in particular the `host`
parameters already passed by value to running `runIndividualPingSchedule`
goroutines (the `workers` field) are unchanged. -/
def performDNSRefreshCheck (resolve : String → Option String) (st : SysState) : SysState :=
  { st with
    targets := ⟨st.targets.organizations.map
      (fun p => (p.1, ⟨p.2.hosts.map (refreshHost resolve)⟩))⟩ }

/-- Embeds the ping interval computation of `startPingMonitoring`
(main.go:2065): `time.Duration(DataPointTime) * time.Second /
time.Duration(DataPointPings)`, integer division on nanoseconds. -/
def pingIntervalNs (cfg : Config) : Nat :=
  cfg.dataPointTime * 1000000000 / cfg.dataPointPings

/-- Embeds the stagger-delay computation of `startPingMonitoring`
(main.go:2082-2085): `staggerDelay := pingInterval /
time.Duration(totalHosts)`, capped at 100 ms.  In Go the division panics when
`totalHosts = 0`; this definition is only ever applied with `0 < totalHosts`
(see `startPingMonitoring`, which models the panic). -/
def staggerDelayNs (cfg : Config) (totalHosts : Nat) : Nat :=
  let d := pingIntervalNs cfg / totalHosts
  if 100000000 < d then 100000000 else d

/-- Embeds the initial delay of worker number `k` (0-indexed `hostIndex`,
main.go:2092): `startDelay := time.Duration(hostIndex) * staggerDelay`. -/
def workerStartDelayNs (cfg : Config) (totalHosts k : Nat) : Nat :=
  k * staggerDelayNs cfg totalHosts

/-- Embeds `startPingMonitoring` (main.go:2063-2112): it snapshots the
registry, computes `staggerDelay = pingInterval / totalHosts`, and starts one
goroutine per target, worker `k` delayed by `k * staggerDelay`, passing each
goroutine its `Host` record by value.  When the registry is empty the Go
division `pingInterval / time.Duration(totalHosts)` is an integer division by
zero, a runtime panic that aborts the process; that is modelled as `none`. -/
def startPingMonitoring (cfg : Config) (t : TargetsConfig) : Option (List WorkerState) :=
  let total := (allTargets t).length
  if total = 0 then none
  else some ((allTargets t).enum.map
    (fun ik => ⟨ik.2.1, ik.2.2, workerStartDelayNs cfg total ik.1⟩))

/-- Embeds the target-address selection of `sendSinglePing` (main.go:2159-2163):
probe `ResolvedIP` when non-empty, else the raw `IP` field — read from the
`Host` value the worker holds. -/
def sendSinglePingTarget (h : Host) : String :=
  if h.resolvedIP ≠ "" then h.resolvedIP else h.ip

/-- Embeds the effective-source computation shared by `sendSinglePing`
(main.go:2178-2183) and `writeToInflux` (main.go:2509-2516): per-host
`pingsource` overrides the global `ping_source`; otherwise `"default"`. -/
def effectiveSourceIP (cfg : Config) (h : Host) : String :=
  if h.pingSource ≠ "" ∧ h.pingSource ≠ "default" then h.pingSource
  else if cfg.pingSource ≠ "" ∧ cfg.pingSource ≠ "default" then cfg.pingSource
  else "default"

/-- Embeds the tag construction of `writeToInflux` (main.go:2502-2531), in
insertion order.  The `resolved_ip` tag is present exactly when the result's
host is DNS-named and its probed address differs from the raw `ip` field —
both read from the `Host` value embedded in the `PingResult`. -/
def influxTags (cfg : Config) (r : PingResult) : List (String × String) :=
  let targetIP := if r.host.resolvedIP ≠ "" then r.host.resolvedIP else r.host.ip
  let base := [("host", r.host.name), ("ip", r.host.ip),
               ("organization", r.orgName), ("source", effectiveSourceIP cfg r.host)]
  if r.host.isDNSName ∧ targetIP ≠ r.host.ip then
    base ++ [("resolved_ip", targetIP), ("is_dns_name", "true")]
  else
    base ++ [("is_dns_name", "false")]

/-- The data point a running worker hands to `processDataPoint` →
`storeResult` → `checkAlarms` (main.go:2146, 2207-2262): its `Host` field is
the worker's captured copy, not a fresh registry read. -/
def workerDataPointResult (w : WorkerState) (avgRTTns : Nat) (packetLoss : ℚ)
    (jitterNs : Nat) (timestampNs : Int) : PingResult :=
  ⟨w.host, avgRTTns, packetLoss, jitterNs, timestampNs, w.orgName⟩

/- ### Data-point aggregation -/

/-- The metric triple computed by `processDataPoint` (main.go:2207-2262).
`avgRTTns` is a `time.Duration` (integer nanoseconds); `packetLoss` is a
`float64` percentage, abstracted to `ℚ`.  The jitter is carried as the exact
variance `jitterSqNs` (a rational, since samples and the truncated mean are
integers); the emitted jitter value is `DataPoint.jitterNs`, its real square
root.  The Go cast `time.Duration(math.Sqrt(variance))`, which truncates the
jitter to whole nanoseconds before storing it, is abstracted away together
with the `float64` rounding. -/
structure DataPoint where
  avgRTTns : Nat
  packetLoss : ℚ
  jitterSqNs : ℚ
deriving DecidableEq, Repr

/-- The jitter value `math.Sqrt(variance)` of main.go:2246, as a real
number. -/
noncomputable def DataPoint.jitterNs (dp : DataPoint) : ℝ :=
  Real.sqrt (dp.jitterSqNs : ℝ)

/-- Embeds the statistics of `processDataPoint` (main.go:2213-2258) for one
window: `rtts` is the list of successful RTT samples in nanoseconds (failed
probes append nothing, main.go:2134-2139).  No success gives (0, 100, 0);
otherwise `avgRTT = totalRTT / successes` is Go `time.Duration` integer
division (`Nat` division here), `packetLoss = float64(pings − successes) /
float64(pings) × 100` with the `int` subtraction taken in `ℤ`, and for more
than one success the variance is `Σ (float64(rtt) − float64(avgRTT))² /
successes`, the deviations being taken against the truncated integer mean
exactly as in the source; with at most one success the variance is left at
zero (main.go:2237-2247), making the emitted jitter zero. -/
def processDataPoint (dataPointPings : Nat) (rtts : List Nat) : DataPoint :=
  if rtts.length = 0 then
    { avgRTTns := 0, packetLoss := 100, jitterSqNs := 0 }
  else
    let avg : Nat := rtts.sum / rtts.length
    { avgRTTns := avg
      packetLoss :=
        ((((dataPointPings : Int) - (rtts.length : Int) : Int) : ℚ) / (dataPointPings : ℚ)) * 100
      jitterSqNs :=
        if 1 < rtts.length then
          ((rtts.map (fun r : Nat => ((r : ℚ) - (avg : ℚ)) ^ 2)).sum) / (rtts.length : ℚ)
        else 0 }

/- ### Alarm evaluator -/

/-- An alarm channel; the Go code (main.go:2597-2626) represents a triggered
channel as a formatted reason string — the formatting is irrelevant to the
claims, only which channels are present matters. -/
inductive AlarmChannel
  | rtt
  | loss
  | jitter
deriving DecidableEq, Repr

/-- Embeds Go's `strings.ToLower` on a string viewed as its character list;
the receiver names compared against `"none"` are ASCII. -/
def stringToLower (s : String) : String :=
  ⟨s.data.map Char.toLower⟩

/-- Embeds the receiver selection of `checkAlarms` (main.go:2572-2575):
per-host `AlarmReceiver` if set, else the global `alarm_receiver`. -/
def effectiveAlarmReceiver (cfg : Config) (h : Host) : String :=
  if h.alarmReceiver = "" then cfg.alarmReceiver else h.alarmReceiver

/-- Embeds the triggered-channel computation of `checkAlarms`
(main.go:2597-2626): each channel requires its threshold to be positive and
the metric (converted to milliseconds by dividing the nanosecond count by 1e6,
as `float64(...Nanoseconds()) / 1e6` in Go) to strictly exceed it. -/
def alarmReasonsFor (h : Host) (r : PingResult) : List AlarmChannel :=
  (if 0 < h.alarmPing ∧ (h.alarmPing : ℚ) < (r.avgRTTns : ℚ) / 1000000
   then [AlarmChannel.rtt] else []) ++
  (if 0 < h.alarmLoss ∧ (h.alarmLoss : ℚ) < r.packetLoss
   then [AlarmChannel.loss] else []) ++
  (if 0 < h.alarmJitter ∧ (h.alarmJitter : ℚ) < (r.jitterNs : ℚ) / 1000000
   then [AlarmChannel.jitter] else [])

/-- Embeds the per-target alarm key `fmt.Sprintf("%s_%s", result.OrgName,
host.Name)` (main.go:2585). -/
def hostAlarmKey (orgName : String) (h : Host) : String :=
  orgName ++ "_" ++ h.name

/-- Embeds the rate-limit test of `checkAlarms` (main.go:2586-2595): an entry
exists in `lastAlarms` and `time.Since(lastAlarm) <
time.Duration(AlarmRate) * time.Second`.  Times are nanosecond instants. -/
def withinAlarmRateLimit (cfg : Config) (lastAlarms : List (String × Int))
    (nowNs : Int) (key : String) : Bool :=
  match lastAlarms.lookup key with
  | some t => decide (nowNs - t < (cfg.alarmRate : Int) * 1000000000)
  | none => false

/-- Embeds the Go map assignment `sp.lastAlarms[hostKey] = time.Now()`
(main.go:2634).  The map is modelled as an association list whose most recent
binding for a key comes first; only `List.lookup` semantics are used. -/
def setLastAlarm (lastAlarms : List (String × Int)) (key : String) (v : Int) :
    List (String × Int) :=
  (key, v) :: lastAlarms.filter (fun p => p.1 ≠ key)

/-- Embeds `checkAlarms` (main.go:2562-2639) as a function from the
configuration, the last-alarm map and the current instant to (fired?, updated
map).  Branches in source order: skip when all three thresholds are zero; skip
when the effective receiver is empty or case-insensitively "none"; skip
(leaving the map unchanged) while within the rate limit; otherwise compute the
triggered channels and, if any, dispatch and record `now` for the target. -/
def checkAlarms (cfg : Config) (lastAlarms : List (String × Int)) (nowNs : Int)
    (r : PingResult) : Bool × List (String × Int) :=
  let h := r.host
  if h.alarmPing = 0 ∧ h.alarmLoss = 0 ∧ h.alarmJitter = 0 then (false, lastAlarms)
  else
    let recv := effectiveAlarmReceiver cfg h
    if recv = "" ∨ stringToLower recv = "none" then (false, lastAlarms)
    else if withinAlarmRateLimit cfg lastAlarms nowNs (hostAlarmKey r.orgName h) then
      (false, lastAlarms)
    else if alarmReasonsFor h r ≠ [] then
      (true, setLastAlarm lastAlarms (hostAlarmKey r.orgName h) nowNs)
    else (false, lastAlarms)

/- ### Sink batcher -/

/-- The batcher's shared state (`sp.batchPoints`, `sp.lastFlush`, guarded by
`batchMutex`).  Points are opaque; `lastFlushNs` is a nanosecond instant. -/
structure BatchState where
  batchPoints : List Nat
  lastFlushNs : Int
deriving DecidableEq, Repr

/-- Embeds `flushBatchUnsafe` (main.go:1934-1951): an empty queue returns at
once (no write, `lastFlush` untouched); otherwise every queued point is
written in order, the queue is reset and `lastFlush` set to now.  The value
returned alongside the state is the list of points handed to the sink. -/
def flushBatchUnsafe (nowNs : Int) (st : BatchState) : BatchState × List Nat :=
  if st.batchPoints = [] then (st, [])
  else ({ batchPoints := [], lastFlushNs := nowNs }, st.batchPoints)

/-- Embeds the batching tail of `writeToInflux` (main.go:2547-2558): the point
is appended under the mutex, and the batch is flushed when the new length
reaches `influx_batch_size`. -/
def writeToInfluxBatch (cfg : Config) (nowNs : Int) (st : BatchState) (point : Nat) :
    BatchState × List Nat :=
  let st1 : BatchState := { st with batchPoints := st.batchPoints ++ [point] }
  if cfg.influxBatchSize ≤ st1.batchPoints.length then flushBatchUnsafe nowNs st1
  else (st1, [])

/-- Embeds `checkAndFlushBatch` (main.go:1917-1924), run on every timer tick
(main.go:1910-1911): it flushes only when the queue is non-empty AND
`time.Since(lastFlush) >= time.Duration(InfluxBatchTime) * time.Second`. -/
def batchTimerTick (cfg : Config) (nowNs : Int) (st : BatchState) : BatchState × List Nat :=
  if st.batchPoints ≠ [] ∧ (cfg.influxBatchTime : Int) * 1000000000 ≤ nowNs - st.lastFlushNs then
    flushBatchUnsafe nowNs st
  else (st, [])

/-- Embeds the shutdown path of `batchFlushTimer` (main.go:1906-1909): on
context cancellation it calls `flushBatch("shutdown")`, which is
`flushBatchUnsafe` under the mutex, with no further condition. -/
def batchShutdownFlush (nowNs : Int) (st : BatchState) : BatchState × List Nat :=
  flushBatchUnsafe nowNs st

/- ### Reconciler and hot reload -/

/-- Embeds the diff key `fmt.Sprintf("%s_%s_%s", orgName, host.Name, host.IP)`
of `compareTargets` (main.go:1840, 1848). -/
def targetKey (orgName : String) (h : Host) : String :=
  orgName ++ "_" ++ h.name ++ "_" ++ h.ip

/-- The diff key of a (organization, host) pair. -/
def keyOf (p : TargetPair) : String :=
  targetKey p.1 p.2

/-- The identity triple (organization, name, original address) that the
specification says the diff is keyed by. -/
def tripleOf (p : TargetPair) : String × String × String :=
  (p.1, p.2.name, p.2.ip)

/-- Whether some target of `l` has the same diff key as `p`, i.e. whether
`p`'s key is present in the Go map built from `l`. -/
def keyMem (l : List TargetPair) (p : TargetPair) : Bool :=
  l.any (fun q => keyOf q == keyOf p)

/-- Models iterating the entries of the Go map built by `oldMap[key] =
targetInfo` over a target list: one entry per distinct key, holding the last
target written for that key.  (Go iterates map entries in unspecified order;
the verified statements are membership statements, insensitive to order.) -/
def dedupLastByKey : List TargetPair → List TargetPair
  | [] => []
  | p :: rest =>
    if rest.any (fun q => keyOf q == keyOf p) then dedupLastByKey rest
    else p :: dedupLastByKey rest

/-- The three classification lists returned by `compareTargets`. -/
structure TargetDiff where
  added : List TargetPair
  removed : List TargetPair
  unchanged : List TargetPair
deriving DecidableEq, Repr

/-- Embeds `compareTargets` (main.go:1832-1868): every new-registry target
whose key is found in the old map is `unchanged`, otherwise `added`; every
entry of the old map whose key is absent from the new map is `removed`. -/
def compareTargets (old new : TargetsConfig) : TargetDiff :=
  let oldT := allTargets old
  let newT := allTargets new
  { unchanged := newT.filter (fun p => keyMem oldT p)
    added := newT.filter (fun p => !keyMem oldT p)
    removed := (dedupLastByKey oldT).filter (fun p => !keyMem newT p) }

/-- Embeds `applyTargetChanges` (main.go:1784-1829): it computes the diff (for
logging), replaces `sp.targets` with the new registry under the write lock and
refreshes the file-watcher set.  It neither starts nor stops any scheduler
goroutine, so the `workers` field is untouched. -/
def applyTargetChanges (st : SysState) (newTargets : TargetsConfig) : SysState :=
  { st with targets := newTargets }

/-- Embeds `validateCompleteTargets` (main.go:1073-1128), which reports the
first collected error: no organizations, then no hosts at all, then more than
10000 hosts.  (Duplicate host names across organizations are only a
warning.) -/
def validateCompleteTargets (t : TargetsConfig) : Except String Unit :=
  if t.organizations = [] then Except.error "no organizations defined"
  else if (allTargets t).length = 0 then
    Except.error "no hosts defined across all organizations"
  else if 10000 < (allTargets t).length then Except.error "too many total hosts"
  else Except.ok ()

/-- Embeds `reloadTargets` (main.go:1740-1781).  The file loading and merging
of includes is abstracted as the `loadResult` argument (a failure of the main
targets file is an error; failed includes are only warnings and are part of a
successful `loadResult`).  A load error propagates; a loaded candidate then
passes `validateCompleteTargets` or errors.  The Go function temporarily
installs the candidate in `sp.targets` for validation and restores the
original on failure (main.go:1768-1777), so on error the registry is
net-unchanged. -/
def reloadTargetsOutcome (loadResult : Except String TargetsConfig) :
    Except String TargetsConfig :=
  match loadResult with
  | Except.error e => Except.error e
  | Except.ok t =>
    match validateCompleteTargets t with
    | Except.error e => Except.error e
    | Except.ok _ => Except.ok t

/-- Embeds `reloadConfiguration` (main.go:1718-1737): a failed reload logs and
returns with the current state kept; a successful one applies the candidate
via `applyTargetChanges`. -/
def reloadConfiguration (st : SysState) (loadResult : Except String TargetsConfig) :
    SysState :=
  match reloadTargetsOutcome loadResult with
  | Except.error _ => st
  | Except.ok newT => applyTargetChanges st newT

/- ### Concrete fixtures used by the counterexamples and witnesses -/

/-- A configuration within all validated ranges (main.go:600-705):
`data_point_pings = 5`, `data_point_time = 10 s` (ping interval 2 s),
`influx_batch_size = 100`, `influx_batch_time = 10 s`, `alarm_rate = 300 s`,
`dns_refresh = 0`. -/
def cfgExample : Config :=
  { influxURL := "http://influx.example.test:8086", influxToken := "t",
    influxOrg := "o", influxBucket := "b", influxBatchSize := 100,
    influxBatchTime := 10, dataPointPings := 5, dataPointTime := 10,
    pingTimeout := 3, pingSource := "", dnsRefresh := 0, alarmRate := 300,
    alarmReceiver := "", maxConcurrentPings := 100 }

/-- `cfgExample` with a small batch size for exercising the batcher. -/
def cfgBatch : Config :=
  { cfgExample with influxBatchSize := 2 }

/-- A hostname target as it stands after startup pre-flight: original address
`svc.example.test`, resolved to `10.0.0.1`. -/
def svcHost : Host :=
  { name := "svc", ip := "svc.example.test", alarmPing := 0, alarmLoss := 0,
    alarmJitter := 0, alarmReceiver := "", pingSource := "",
    resolvedIP := "10.0.0.1", isDNSName := true }

/-- System state with `svcHost` in the registry and one running worker that
captured `svcHost` when its goroutine was started. -/
def sysSvc : SysState :=
  ⟨⟨[("Org", ⟨[svcHost]⟩)]⟩, [⟨"Org", svcHost, 0⟩]⟩

/-- A literal-address target with an RTT alarm threshold of 100 ms and its own
alarm receiver script. -/
def thresholdHost : Host :=
  { name := "H", ip := "192.0.2.1", alarmPing := 100, alarmLoss := 0,
    alarmJitter := 0, alarmReceiver := "/usr/local/bin/alarm.sh",
    pingSource := "", resolvedIP := "192.0.2.1", isDNSName := false }

/-- `thresholdHost` after a hot-reload edit raising the RTT threshold to
200 ms (same organization, name and address, so the diff key matches). -/
def thresholdHost200 : Host :=
  { thresholdHost with alarmPing := 200 }

/-- System state with `thresholdHost` registered and one running worker that
captured it. -/
def sysThreshold : SysState :=
  ⟨⟨[("Org", ⟨[thresholdHost]⟩)]⟩, [⟨"Org", thresholdHost, 0⟩]⟩

/-- Two hostname targets as freshly loaded from TOML (resolution fields still
blank). -/
def dnsHostA : Host :=
  { name := "A", ip := "a.example.test", alarmPing := 0, alarmLoss := 0,
    alarmJitter := 0, alarmReceiver := "", pingSource := "",
    resolvedIP := "", isDNSName := false }

/-- Second freshly loaded hostname target. -/
def dnsHostB : Host :=
  { name := "B", ip := "b.example.test", alarmPing := 0, alarmLoss := 0,
    alarmJitter := 0, alarmReceiver := "", pingSource := "",
    resolvedIP := "", isDNSName := false }

/-- A registry holding the two hostname targets in one organization. -/
def dnsTargets : TargetsConfig :=
  ⟨[("Org", ⟨[dnsHostA, dnsHostB]⟩)]⟩

/-- A target alarming only on packet loss (threshold 50 %), with its own
receiver script. -/
def lossHost : Host :=
  { name := "L", ip := "192.0.2.2", alarmPing := 0, alarmLoss := 50,
    alarmJitter := 0, alarmReceiver := "/usr/local/bin/alarm.sh",
    pingSource := "", resolvedIP := "192.0.2.2", isDNSName := false }

/-- Target named `C` at address 1.1.1.1, all optional fields blank. -/
def plainHostC : Host :=
  { name := "C", ip := "1.1.1.1", alarmPing := 0, alarmLoss := 0,
    alarmJitter := 0, alarmReceiver := "", pingSource := "",
    resolvedIP := "", isDNSName := false }

/-- Target named `B_C` (underscores are legal in names, main.go:1153-1161) at
the same address 1.1.1.1. -/
def plainHostBC : Host :=
  { name := "B_C", ip := "1.1.1.1", alarmPing := 0, alarmLoss := 0,
    alarmJitter := 0, alarmReceiver := "", pingSource := "",
    resolvedIP := "", isDNSName := false }

/-! ## Theorems -/

/-- C6 (code bug): the claim — and the repository's own DNS documentation —
say `dns_refresh = 0` disables periodic refresh, and the guard of
`startDNSRefreshMonitoring` (main.go:1497) would indeed disable it; but
`setupDNSResolver` (main.go:1370-1372), which `main` runs first, rewrites any
`dns_refresh ≤ 0` to the default 600, so with `dns_refresh = 0` the refresh
ticker is started with a 600-second interval and hostname targets are
re-resolved after startup. -/
theorem dnsRefresh_zero_still_refreshes :
    cfgExample.dnsRefresh = 0 ∧
    dnsRefreshMonitoringStarts cfgExample = false ∧
    (setupDNSResolver cfgExample).dnsRefresh = 600 ∧
    dnsRefreshMonitoringStarts (setupDNSResolver cfgExample) = true := by
  decide

/-- C7 counterexample: with ping interval 2 s (`datapoint_time = 10`,
`datapoint_pings = 5`) and `N = 3` targets started together, worker `k = 2`
delays `2 × min(2 s / 3, 100 ms) = 200 ms`, whereas the claimed formula
`min(k × (ping_interval / N), 100 ms)` yields 100 ms; the claimed 100 ms cap
on the per-worker delay is exceeded. -/
theorem workerStartDelay_claim_false :
    workerStartDelayNs cfgExample 3 2 = 200000000 ∧
    min (2 * (pingIntervalNs cfgExample / 3)) 100000000 = 100000000 ∧
    100000000 < workerStartDelayNs cfgExample 3 2 := by
  decide

/-- C7 amended: worker `k` of `N` delays `k × min(ping_interval / N, 100 ms)`
— the cap applies to the per-worker increment, not to the product — so for
`k < N` the initial delay is bounded by `(N − 1) × 100 ms`, not by 100 ms. -/
theorem workerStartDelay_formula (cfg : Config) (totalHosts k : Nat) :
    workerStartDelayNs cfg totalHosts k =
      k * min (pingIntervalNs cfg / totalHosts) 100000000 ∧
    (k < totalHosts →
      workerStartDelayNs cfg totalHosts k ≤ (totalHosts - 1) * 100000000) := by
  constructor
  · unfold workerStartDelayNs
    have hs : staggerDelayNs cfg totalHosts =
        min (pingIntervalNs cfg / totalHosts) 100000000 := by
      simp only [staggerDelayNs, Nat.min_def]
      split <;> split <;> omega
    rw [hs]
  · intro hk
    have h1 : staggerDelayNs cfg totalHosts ≤ 100000000 := by
      simp only [staggerDelayNs]
      split <;> omega
    unfold workerStartDelayNs
    calc k * staggerDelayNs cfg totalHosts ≤ k * 100000000 :=
          Nat.mul_le_mul_left k h1
      _ ≤ (totalHosts - 1) * 100000000 := Nat.mul_le_mul_right _ (by omega)

/-- C7 witness: the amended formula and bound evaluated for worker 2 of 3. -/
theorem workerStartDelay_formula_witness :
    workerStartDelayNs cfgExample 3 2 =
      2 * min (pingIntervalNs cfgExample / 3) 100000000 ∧
    workerStartDelayNs cfgExample 3 2 ≤ (3 - 1) * 100000000 :=
  ⟨(workerStartDelay_formula cfgExample 3 2).1,
   (workerStartDelay_formula cfgExample 3 2).2 (by decide)⟩

/-- C8: when loading or validating the reload candidate fails, the whole
system state — registry and running schedulers — is exactly what it was
before the attempt: `reloadConfiguration` (main.go:1730-1733) returns before
`applyTargetChanges`, and `reloadTargets` restores the transiently swapped
registry on validation failure (main.go:1773-1777). -/
theorem reloadConfiguration_error_keeps_state (st : SysState)
    (loadResult : Except String TargetsConfig)
    (h : ∃ e, reloadTargetsOutcome loadResult = Except.error e) :
    reloadConfiguration st loadResult = st := by
  obtain ⟨e, he⟩ := h
  unfold reloadConfiguration
  rw [he]

/-- C8 witness: a candidate with no organizations fails validation and leaves
the state untouched. -/
theorem reloadConfiguration_error_keeps_state_witness :
    reloadConfiguration sysThreshold (Except.ok ⟨[]⟩) = sysThreshold :=
  reloadConfiguration_error_keeps_state sysThreshold (Except.ok ⟨[]⟩)
    ⟨"no organizations defined", rfl⟩

/-- C5 counterexample: with `influx_batch_size = 2` and `influx_batch_time =
10 s`, enqueue point 1 at t = 1 s (no flush), point 2 at t = 5 s (size flush,
`lastFlush := 5 s`), point 3 at t = 7 s; the periodic tick at t = 10 s finds a
non-empty queue but does NOT flush, because `checkAndFlushBatch`
(main.go:1921) additionally requires `time.Since(lastFlush) ≥
influx_batch_time` and only 5 s have elapsed — refuting the claim that every
tick with a non-empty queue flushes. -/
theorem batchTimerTick_claim_false :
    (let st1 := (writeToInfluxBatch cfgBatch 1000000000 ⟨[], 0⟩ 1).1
     let st2 := (writeToInfluxBatch cfgBatch 5000000000 st1 2).1
     let st3 := (writeToInfluxBatch cfgBatch 7000000000 st2 3).1
     st3.batchPoints ≠ [] ∧
     batchTimerTick cfgBatch 10000000000 st3 = (st3, [])) := by
  decide

/-- C5 amended: an enqueue flushes exactly when it brings the queue length to
`influx_batch_size` or beyond; a periodic tick flushes exactly when the queue
is non-empty AND at least `influx_batch_time` seconds have elapsed since the
last flush; shutdown flushes exactly when the queue is non-empty.  After every
flush the queue is empty, and a flush hands the sink precisely the queued
points in order. -/
theorem batchFlush_conditions (cfg : Config) (nowNs : Int) (st : BatchState)
    (point : Nat) :
    writeToInfluxBatch cfg nowNs st point =
      (if cfg.influxBatchSize ≤ st.batchPoints.length + 1 then
        (⟨[], nowNs⟩, st.batchPoints ++ [point])
      else (⟨st.batchPoints ++ [point], st.lastFlushNs⟩, [])) ∧
    batchTimerTick cfg nowNs st =
      (if st.batchPoints ≠ [] ∧
          (cfg.influxBatchTime : Int) * 1000000000 ≤ nowNs - st.lastFlushNs then
        (⟨[], nowNs⟩, st.batchPoints)
      else (st, [])) ∧
    batchShutdownFlush nowNs st =
      (if st.batchPoints ≠ [] then (⟨[], nowNs⟩, st.batchPoints) else (st, [])) := by
  refine ⟨?_, ?_, ?_⟩
  · unfold writeToInfluxBatch flushBatchUnsafe
    simp only [List.length_append, List.length_cons, List.length_nil, Nat.zero_add]
    split
    · simp
    · rfl
  · unfold batchTimerTick flushBatchUnsafe
    split
    · next h => simp [h.1]
    · rfl
  · unfold batchShutdownFlush flushBatchUnsafe
    split
    · next h => simp [h]
    · next h => simp [h]

/-- C1 (code bug): after a DNS refresh resolves `svc.example.test` to
`10.0.0.2`, the registry entry is updated — but the running worker still holds
the `Host` value that `startPingMonitoring` passed to its goroutine by value,
so every subsequent probe is sent to the old address `10.0.0.1` and every
emitted data point still carries `resolved_ip = "10.0.0.1"`.  The claim (and
the repository's DNS documentation, which promises dynamically applied
changes) requires probes and tags to switch to `10.0.0.2`. -/
theorem dnsChange_not_propagated_to_worker :
    (performDNSRefreshCheck (fun _ => some "10.0.0.2") sysSvc).targets =
      ⟨[("Org", ⟨[{ svcHost with resolvedIP := "10.0.0.2" }]⟩)]⟩ ∧
    (performDNSRefreshCheck (fun _ => some "10.0.0.2") sysSvc).workers =
      [⟨"Org", svcHost, 0⟩] ∧
    sendSinglePingTarget svcHost = "10.0.0.1" ∧
    (influxTags cfgExample
      (workerDataPointResult ⟨"Org", svcHost, 0⟩ 1000000 0 0 0)).lookup "resolved_ip" =
      some "10.0.0.1" := by
  decide

/-- C3 counterexample: raise `thresholdHost`'s RTT threshold from 100 ms to
200 ms via hot reload.  The registry gets the new value and the worker is not
restarted — but the data point the running worker then completes embeds its
captured `Host` copy, and `checkAlarms` evaluated on it fires at
`avg_rtt = 150 ms` (150 > old 100), whereas evaluation with the new registry
thresholds would not fire (150 ≤ new 200): alarm evaluation after the reload
does NOT use the new threshold values. -/
theorem thresholdReload_claim_false :
    (applyTargetChanges sysThreshold ⟨[("Org", ⟨[thresholdHost200]⟩)]⟩).targets =
      ⟨[("Org", ⟨[thresholdHost200]⟩)]⟩ ∧
    (applyTargetChanges sysThreshold ⟨[("Org", ⟨[thresholdHost200]⟩)]⟩).workers =
      sysThreshold.workers ∧
    (checkAlarms cfgExample [] 0
      (workerDataPointResult ⟨"Org", thresholdHost, 0⟩ 150000000 0 0 0)).1 = true ∧
    (checkAlarms cfgExample [] 0
      (⟨thresholdHost200, 150000000, 0, 0, 0, "Org"⟩ : PingResult)).1 = false := by
  refine ⟨rfl, rfl, ?_, ?_⟩
  · have hr : alarmReasonsFor thresholdHost
        (⟨thresholdHost, 150000000, 0, 0, 0, "Org"⟩ : PingResult) =
        [AlarmChannel.rtt] := by
      simp only [alarmReasonsFor, thresholdHost]
      norm_num
    simp only [checkAlarms]
    rw [if_neg (by decide), if_neg (by decide), if_neg (by decide),
      if_pos (by simp [workerDataPointResult, hr])]
  · have hr : alarmReasonsFor thresholdHost200
        (⟨thresholdHost200, 150000000, 0, 0, 0, "Org"⟩ : PingResult) = [] := by
      simp only [alarmReasonsFor, thresholdHost200, thresholdHost]
      norm_num
    simp only [checkAlarms]
    rw [if_neg (by decide), if_neg (by decide), if_neg (by decide),
      if_neg (by simp [hr])]

/-- C3 amended: a threshold-only edit on a matching key does not interrupt the
target's scheduler — `applyTargetChanges` replaces the registry and neither
starts nor stops workers — but the new values do NOT take effect for the
running worker: its data points embed the `Host` record captured at scheduler
start, which is all `checkAlarms` reads; the registry is not consulted at
alarm-check time. -/
theorem applyTargetChanges_registry_only (st : SysState)
    (newTargets : TargetsConfig) (w : WorkerState) (a : Nat) (l : ℚ) (j : Nat)
    (ts : Int) :
    (applyTargetChanges st newTargets).targets = newTargets ∧
    (applyTargetChanges st newTargets).workers = st.workers ∧
    (workerDataPointResult w a l j ts).host = w.host :=
  ⟨rfl, rfl, rfl⟩

/-- C9 (code bug): a host whose startup resolution fails is dropped while
surviving hosts are kept in order with their resolution recorded — but when
EVERY target is dropped, `startPingMonitoring` (main.go:2082) computes
`staggerDelay = pingInterval / time.Duration(totalHosts)` with
`totalHosts = 0`, an integer division by zero that panics and aborts startup
(modelled as `none`), contradicting the claim that startup succeeds no matter
how many targets are dropped. -/
theorem preflight_drop_all_startup_panics :
    performDNSPreflightChecks
        (fun s => if s = "b.example.test" then some "192.0.2.7" else none)
        (fun _ => false) dnsTargets =
      ⟨[("Org", ⟨[{ dnsHostB with isDNSName := true, resolvedIP := "192.0.2.7" }]⟩)]⟩ ∧
    (startPingMonitoring cfgExample
        (performDNSPreflightChecks
          (fun s => if s = "b.example.test" then some "192.0.2.7" else none)
          (fun _ => false) dnsTargets)).isSome = true ∧
    performDNSPreflightChecks (fun _ => none) (fun _ => false) dnsTargets =
      ⟨[("Org", ⟨[]⟩)]⟩ ∧
    startPingMonitoring cfgExample
        (performDNSPreflightChecks (fun _ => none) (fun _ => false) dnsTargets) =
      none := by
  decide

/-- C2: the data-point math.  With no successful sample the emitted point is
(0, 100, 0); otherwise `avg_rtt` is the mean of the samples (Go
`time.Duration` division, i.e. the integer nanosecond mean), `loss_pct =
(datapoint_pings − successes) / datapoint_pings × 100` and lies in [0, 100],
and the jitter is the population standard deviation
`sqrt(Σ(sample − avg_rtt)² / successes)` for more than one success and 0 for
at most one.  Hypotheses: `datapoint_pings ≥ 1` (validated range 1–100,
main.go:643) and `successes ≤ datapoint_pings` (the window closes after
exactly `datapoint_pings` ticks, main.go:2144). -/
theorem processDataPoint_spec (p : Nat) (rtts : List Nat)
    (hp : 0 < p) (hlen : rtts.length ≤ p) :
    (rtts.length = 0 → processDataPoint p rtts = ⟨0, 100, 0⟩) ∧
    (0 < rtts.length →
      (processDataPoint p rtts).avgRTTns = rtts.sum / rtts.length ∧
      (processDataPoint p rtts).packetLoss =
        (((p : ℚ) - (rtts.length : ℚ)) / (p : ℚ)) * 100 ∧
      0 ≤ (processDataPoint p rtts).packetLoss ∧
      (processDataPoint p rtts).packetLoss ≤ 100 ∧
      (1 < rtts.length →
        (processDataPoint p rtts).jitterNs =
          Real.sqrt (((rtts.map
            (fun r : Nat => ((r : ℝ) - ((rtts.sum / rtts.length : Nat) : ℝ)) ^ 2)).sum) /
            (rtts.length : ℝ))) ∧
      (rtts.length ≤ 1 → (processDataPoint p rtts).jitterNs = 0)) := by
  have hp0 : (0 : ℚ) < (p : ℚ) := by exact_mod_cast hp
  constructor
  · intro h0
    simp [processDataPoint, h0]
  · intro hpos
    have hne : ¬ rtts.length = 0 := by omega
    refine ⟨?_, ?_, ?_, ?_, ?_, ?_⟩
    · simp [processDataPoint, hne]
    · simp only [processDataPoint, if_neg hne]
      push_cast
      ring
    · simp only [processDataPoint, if_neg hne]
      have hsub : (0 : ℚ) ≤ (((p : Int) - (rtts.length : Int) : Int) : ℚ) := by
        have h1 : ((rtts.length : ℚ)) ≤ (p : ℚ) := by exact_mod_cast hlen
        push_cast
        linarith
      exact mul_nonneg (div_nonneg hsub hp0.le) (by norm_num)
    · simp only [processDataPoint, if_neg hne]
      have h1 : (((p : Int) - (rtts.length : Int) : Int) : ℚ) / (p : ℚ) ≤ 1 := by
        rw [div_le_one hp0]
        have h2 : (0 : ℚ) ≤ (rtts.length : ℚ) := by positivity
        push_cast
        linarith
      have h3 := mul_le_mul_of_nonneg_right h1 (by norm_num : (0 : ℚ) ≤ 100)
      linarith
    · intro hgt
      have hsum : ∀ (l : List Nat) (a : Nat),
          (((l.map (fun r : Nat => ((r : ℚ) - (a : ℚ)) ^ 2)).sum : ℚ) : ℝ) =
          (l.map (fun r : Nat => ((r : ℝ) - (a : ℝ)) ^ 2)).sum := by
        intro l a
        induction l with
        | nil => simp
        | cons x xs ih =>
          simp only [List.map_cons, List.sum_cons, Rat.cast_add, ih]
          push_cast
          ring
      simp only [processDataPoint, if_neg hne, DataPoint.jitterNs, if_pos hgt]
      rw [Rat.cast_div, hsum rtts (rtts.sum / rtts.length), Rat.cast_natCast]
    · intro hle
      have hgt : ¬ 1 < rtts.length := by omega
      simp only [processDataPoint, if_neg hne, DataPoint.jitterNs, if_neg hgt]
      simp [Real.sqrt_zero]

/-- C2 witness: five probes, successes {10, 20, 30} ns — the mean, the loss
formula and both loss bounds, via `processDataPoint_spec`. -/
theorem processDataPoint_spec_witness :
    (processDataPoint 5 [10, 20, 30]).avgRTTns =
      ([10, 20, 30] : List Nat).sum / ([10, 20, 30] : List Nat).length ∧
    (processDataPoint 5 [10, 20, 30]).packetLoss =
      (((5 : ℚ) - (([10, 20, 30] : List Nat).length : ℚ)) / (5 : ℚ)) * 100 ∧
    0 ≤ (processDataPoint 5 [10, 20, 30]).packetLoss ∧
    (processDataPoint 5 [10, 20, 30]).packetLoss ≤ 100 :=
  have h := (processDataPoint_spec 5 [10, 20, 30] (by decide) (by decide)).2 (by decide)
  ⟨h.1, h.2.1, h.2.2.1, h.2.2.2.1⟩

/-- C4: `checkAlarms` is rate-limited per target exactly as claimed, for
targets whose effective receiver is configured (non-empty and not "none" —
the dispatch precondition of §4.7 the claim presupposes): with a non-empty
triggered set it fires and records `now` for the target's key iff no previous
fire for that key lies strictly less than `alarm_rate` seconds in the past
(`withinAlarmRateLimit` is that test, main.go:2590), it suppresses leaving
the map unchanged otherwise, and with an empty triggered set it does nothing. -/
theorem checkAlarms_rate_limited (cfg : Config) (lastAlarms : List (String × Int))
    (nowNs : Int) (r : PingResult)
    (hrecv : effectiveAlarmReceiver cfg r.host ≠ "")
    (hnone : stringToLower (effectiveAlarmReceiver cfg r.host) ≠ "none") :
    (alarmReasonsFor r.host r ≠ [] ∧
        withinAlarmRateLimit cfg lastAlarms nowNs (hostAlarmKey r.orgName r.host) = false →
      checkAlarms cfg lastAlarms nowNs r =
        (true, setLastAlarm lastAlarms (hostAlarmKey r.orgName r.host) nowNs) ∧
      (setLastAlarm lastAlarms (hostAlarmKey r.orgName r.host) nowNs).lookup
        (hostAlarmKey r.orgName r.host) = some nowNs) ∧
    (alarmReasonsFor r.host r ≠ [] ∧
        withinAlarmRateLimit cfg lastAlarms nowNs (hostAlarmKey r.orgName r.host) = true →
      checkAlarms cfg lastAlarms nowNs r = (false, lastAlarms)) ∧
    (alarmReasonsFor r.host r = [] →
      checkAlarms cfg lastAlarms nowNs r = (false, lastAlarms)) := by
  have hz : r.host.alarmPing = 0 ∧ r.host.alarmLoss = 0 ∧ r.host.alarmJitter = 0 →
      alarmReasonsFor r.host r = [] := by
    rintro ⟨h1, h2, h3⟩
    simp [alarmReasonsFor, h1, h2, h3]
  have hcond2 : ¬ (effectiveAlarmReceiver cfg r.host = "" ∨
      stringToLower (effectiveAlarmReceiver cfg r.host) = "none") := by
    rintro (h | h)
    · exact hrecv h
    · exact hnone h
  refine ⟨?_, ?_, ?_⟩
  · rintro ⟨hne, hw⟩
    have hz' : ¬ (r.host.alarmPing = 0 ∧ r.host.alarmLoss = 0 ∧ r.host.alarmJitter = 0) :=
      fun hzz => hne (hz hzz)
    constructor
    · simp only [checkAlarms]
      rw [if_neg hz', if_neg hcond2, if_neg (by simp [hw]), if_pos hne]
    · simp [setLastAlarm, List.lookup]
  · rintro ⟨hne, hw⟩
    have hz' : ¬ (r.host.alarmPing = 0 ∧ r.host.alarmLoss = 0 ∧ r.host.alarmJitter = 0) :=
      fun hzz => hne (hz hzz)
    simp only [checkAlarms]
    rw [if_neg hz', if_neg hcond2, if_pos hw]
  · intro hre
    by_cases hz0 : r.host.alarmPing = 0 ∧ r.host.alarmLoss = 0 ∧ r.host.alarmJitter = 0
    · simp only [checkAlarms]
      rw [if_pos hz0]
    · simp only [checkAlarms]
      rw [if_neg hz0, if_neg hcond2]
      by_cases hw : withinAlarmRateLimit cfg lastAlarms nowNs
          (hostAlarmKey r.orgName r.host) = true
      · rw [if_pos hw]
      · rw [if_neg hw, if_neg (fun hc => hc hre)]

/-- C4 witness: a loss-only target at 80 % loss with an empty last-alarm map
fires and records the instant, via `checkAlarms_rate_limited`. -/
theorem checkAlarms_rate_limited_witness :
    checkAlarms cfgExample [] 0 (workerDataPointResult ⟨"Org", lossHost, 0⟩ 0 80 0 0) =
      (true, setLastAlarm []
        (hostAlarmKey (workerDataPointResult ⟨"Org", lossHost, 0⟩ 0 80 0 0).orgName
          (workerDataPointResult ⟨"Org", lossHost, 0⟩ 0 80 0 0).host) 0) :=
  ((checkAlarms_rate_limited cfgExample [] 0
      (workerDataPointResult ⟨"Org", lossHost, 0⟩ 0 80 0 0)
      (by decide) (by decide)).1 (by decide)).1

/-- Two target pairs with the same identity triple always produce the same
diff key: the key is the triple's components joined with underscores. -/
theorem keyOf_eq_of_tripleOf_eq {p q : TargetPair} (h : tripleOf p = tripleOf q) :
    keyOf p = keyOf q := by
  simp only [tripleOf, Prod.mk.injEq] at h
  simp only [keyOf, targetKey, h.1, h.2.1, h.2.2]

/-- Key membership (`oldMap[key]` existence in Go) is existence of a list
member with the same key. -/
theorem keyMem_eq_true_iff (l : List TargetPair) (p : TargetPair) :
    keyMem l p = true ↔ ∃ q ∈ l, keyOf q = keyOf p := by
  simp [keyMem, List.any_eq_true, beq_iff_eq]

/-- When no two entries of a target list share a diff key, the Go map built
from it has exactly the list's entries. -/
theorem dedupLastByKey_eq_self (l : List TargetPair)
    (h : l.Pairwise (fun p q => keyOf p ≠ keyOf q)) :
    dedupLastByKey l = l := by
  induction l with
  | nil => rfl
  | cons p rest ih =>
    rw [List.pairwise_cons] at h
    have hfalse : ¬ rest.any (fun q => keyOf q == keyOf p) = true := by
      intro hc
      rw [List.any_eq_true] at hc
      obtain ⟨q, hq, he⟩ := hc
      exact h.1 q hq (beq_iff_eq.mp he).symm
    simp only [dedupLastByKey]
    rw [if_neg hfalse, ih h.2]

/-- C10 amended: `compareTargets` classifies by the underscore-joined string
key `org_name_ip`, not by the triple itself.  Provided no colliding keys occur
— distinct triples always yield distinct keys across the two registries
(`hinj`), and keys are pairwise distinct inside the old registry (`hold`) —
the classification agrees with the claim: unchanged iff the target's triple
occurs in both registries, added iff only in the new one, removed iff only in
the old one.  Without those hypotheses distinct triples can be conflated,
because target and organization names may contain underscores (see the
counterexample). -/
theorem compareTargets_classification (old new : TargetsConfig)
    (hinj : ∀ p ∈ allTargets old, ∀ q ∈ allTargets new,
      keyOf p = keyOf q → tripleOf p = tripleOf q)
    (hold : (allTargets old).Pairwise (fun p q => keyOf p ≠ keyOf q))
    (p : TargetPair) :
    (p ∈ (compareTargets old new).unchanged ↔
      p ∈ allTargets new ∧ tripleOf p ∈ (allTargets old).map tripleOf) ∧
    (p ∈ (compareTargets old new).added ↔
      p ∈ allTargets new ∧ tripleOf p ∉ (allTargets old).map tripleOf) ∧
    (p ∈ (compareTargets old new).removed ↔
      p ∈ allTargets old ∧ tripleOf p ∉ (allTargets new).map tripleOf) := by
  have hOld : ∀ q ∈ allTargets new,
      (keyMem (allTargets old) q = true ↔ tripleOf q ∈ (allTargets old).map tripleOf) := by
    intro q hq
    rw [keyMem_eq_true_iff]
    constructor
    · rintro ⟨x, hx, he⟩
      exact List.mem_map.mpr ⟨x, hx, hinj x hx q hq he⟩
    · intro hm
      obtain ⟨x, hx, he⟩ := List.mem_map.mp hm
      exact ⟨x, hx, keyOf_eq_of_tripleOf_eq he⟩
  have hNew : ∀ q ∈ allTargets old,
      (keyMem (allTargets new) q = true ↔ tripleOf q ∈ (allTargets new).map tripleOf) := by
    intro q hq
    rw [keyMem_eq_true_iff]
    constructor
    · rintro ⟨x, hx, he⟩
      exact List.mem_map.mpr ⟨x, hx, (hinj q hq x hx he.symm).symm⟩
    · intro hm
      obtain ⟨x, hx, he⟩ := List.mem_map.mp hm
      exact ⟨x, hx, keyOf_eq_of_tripleOf_eq he⟩
  refine ⟨?_, ?_, ?_⟩
  · simp only [compareTargets, List.mem_filter]
    constructor
    · rintro ⟨hpn, hk⟩
      exact ⟨hpn, (hOld p hpn).mp hk⟩
    · rintro ⟨hpn, ht⟩
      exact ⟨hpn, (hOld p hpn).mpr ht⟩
  · simp only [compareTargets, List.mem_filter, Bool.not_eq_true']
    constructor
    · rintro ⟨hpn, hk⟩
      refine ⟨hpn, fun ht => ?_⟩
      have hh := (hOld p hpn).mpr ht
      rw [hk] at hh
      exact Bool.false_ne_true hh
    · rintro ⟨hpn, ht⟩
      refine ⟨hpn, ?_⟩
      cases hkm : keyMem (allTargets old) p with
      | false => rfl
      | true => exact absurd ((hOld p hpn).mp hkm) ht
  · simp only [compareTargets, List.mem_filter, Bool.not_eq_true',
      dedupLastByKey_eq_self (allTargets old) hold]
    constructor
    · rintro ⟨hpo, hk⟩
      refine ⟨hpo, fun ht => ?_⟩
      have hh := (hNew p hpo).mpr ht
      rw [hk] at hh
      exact Bool.false_ne_true hh
    · rintro ⟨hpo, ht⟩
      refine ⟨hpo, ?_⟩
      cases hkm : keyMem (allTargets new) p with
      | false => rfl
      | true => exact absurd ((hNew p hpo).mp hkm) ht

/-- C10 witness: registries whose keys do not collide — target `B_C` in `O2`
replacing target `C` in `O1` is classified `added`, matching the triple
semantics, via `compareTargets_classification`. -/
theorem compareTargets_classification_witness :
    ("O2", plainHostBC) ∈
        (compareTargets ⟨[("O1", ⟨[plainHostC]⟩)]⟩ ⟨[("O2", ⟨[plainHostBC]⟩)]⟩).added ↔
      ("O2", plainHostBC) ∈ allTargets ⟨[("O2", ⟨[plainHostBC]⟩)]⟩ ∧
      tripleOf ("O2", plainHostBC) ∉
        (allTargets ⟨[("O1", ⟨[plainHostC]⟩)]⟩).map tripleOf :=
  (compareTargets_classification ⟨[("O1", ⟨[plainHostC]⟩)]⟩
    ⟨[("O2", ⟨[plainHostBC]⟩)]⟩ (by decide) (by decide) ("O2", plainHostBC)).2.1

/-- C10 counterexample: old registry has target `C` in organization `A_B`,
new registry has target `B_C` in organization `A`, both at 1.1.1.1 — distinct
triples, but both produce the key `"A_B_C_1.1.1.1"`, so `compareTargets`
classifies the new target as `unchanged` (its triple occurs only in the new
registry) and reports nothing `removed` (the old triple occurs only in the
old registry): distinct triples ARE conflated. -/
theorem compareTargets_claim_false :
    keyOf ("A_B", plainHostC) = keyOf ("A", plainHostBC) ∧
    tripleOf ("A_B", plainHostC) ≠ tripleOf ("A", plainHostBC) ∧
    (compareTargets ⟨[("A_B", ⟨[plainHostC]⟩)]⟩ ⟨[("A", ⟨[plainHostBC]⟩)]⟩).unchanged =
      [("A", plainHostBC)] ∧
    tripleOf ("A", plainHostBC) ∉
      (allTargets ⟨[("A_B", ⟨[plainHostC]⟩)]⟩).map tripleOf ∧
    (compareTargets ⟨[("A_B", ⟨[plainHostC]⟩)]⟩ ⟨[("A", ⟨[plainHostBC]⟩)]⟩).removed = [] ∧
    tripleOf ("A_B", plainHostC) ∉
      (allTargets ⟨[("A", ⟨[plainHostBC]⟩)]⟩).map tripleOf := by
  decide
